import Mathlib

/-!
# Verification of the Red-Pill persistence gateway

A shallow embedding of `src/src-tauri/src/main.rs`: a small Tauri backend
exposing `ping`, `read_csv`, `save_chart_state`, `save_sticky_notes` and
`load_sticky_notes`.  File systems are modelled as maps from component lists
to file contents; each Tauri command becomes a pure function of that state
plus the host context.
-/

namespace RedPill

/-! ## Identifier sanitization

`save_chart_state` sanitizes the caller-supplied `source_id` with
`source_id.replace(|c: char| !c.is_alphanumeric() && c != '_' && c != '-', "_")`.
Rust's `str::replace` with a char-predicate pattern and a one-character
replacement maps each character matching the predicate to that character,
so it is a character-wise map.  Rust's `char::is_alphanumeric` is the
Unicode Alphabetic/Number property; we take that predicate as a parameter
`isAlnum` (its value on every ASCII character is `Char.isAlphanum`, and it
is false on `'/'`, `'\\'`, `'.'` and the null character, which is all the
claims need). -/

/-- One step of the sanitizer: keep `c` when `isAlnum c` or `c` is `'_'` or
`'-'`, otherwise replace it by `'_'`. -/
def sanitizeChar (isAlnum : Char → Bool) (c : Char) : Char :=
  if isAlnum c || c == '_' || c == '-' then c else '_'

/-- The identifier sanitizer of `save_chart_state` (main.rs line 68). -/
def sanitize (isAlnum : Char → Bool) (s : String) : String :=
  ⟨s.data.map (sanitizeChar isAlnum)⟩

/-! ## Path model

Paths are lists of components.  `PathBuf::join` with a string argument
appends that string's components (splitting at the platform separators;
`'/'` everywhere and additionally `'\\'` on Windows, the build's main
target); a leading separator would make the argument absolute and replace
the path wholesale. -/

/-- A character that separates path components. -/
def isSep (c : Char) : Bool := c == '/' || c == '\\'

/-- Split a string into its non-empty path components. -/
def splitPath (s : String) : List String :=
  ((s.data.splitOnP isSep).filter (fun cs => cs ≠ [])).map (fun cs => ⟨cs⟩)

/-- `PathBuf::join dir file`: an absolute `file` replaces `dir`, otherwise
its components are appended. -/
def joinPath (dir : List String) (file : String) : List String :=
  match file.data with
  | c :: _ => if isSep c then splitPath file else dir ++ splitPath file
  | [] => dir

/-- Path resolution: interpret `"."` and `".."` components. -/
def resolvePath (comps : List String) : List String :=
  comps.foldl
    (fun acc c => if c = "." then acc else if c = ".." then acc.dropLast else acc ++ [c]) []

/-! ## Data root and the chart-state store -/

/-- `get_db_path` (main.rs lines 38-42): the host's application-data
directory result (already an `Except` with the OS error rendered to a
string, as `map_err(|e| e.to_string())` does), suffixed with
`RedPillCharting/Database`.  It is a pure function of that context value:
it touches no file-system state and creates no directories. -/
def get_db_path (appDataDir : Except String (List String)) : Except String (List String) :=
  appDataDir.map (fun p => p ++ ["RedPillCharting", "Database"])

/-- The `Drawings` directory under the data root. -/
def drawingsDir (appData : List String) : List String :=
  appData ++ ["RedPillCharting", "Database", "Drawings"]

/-- The file name `format!("{}.json", safe_id)` written by `save_chart_state`. -/
def chartFileName (isAlnum : Char → Bool) (sourceId : String) : String :=
  sanitize isAlnum sourceId ++ ".json"

/-- The full target path `root.join(format!("{}.json", safe_id))`. -/
def chartPath (isAlnum : Char → Bool) (appData : List String) (sourceId : String) :
    List String :=
  joinPath (drawingsDir appData) (chartFileName isAlnum sourceId)

/-- A file store: a map from paths to file contents.  Directories are
created on demand by the commands and carry no observable state of their
own beyond the files below them. -/
def FileStore (α : Type) : Type := List String → Option α

/-- `fs::write path v`: full overwrite of the file at `path`, all other
paths untouched. -/
def writeFile {α : Type} (fs : FileStore α) (p : List String) (v : α) : FileStore α :=
  fun q => if q = p then some v else fs q

/-- `save_chart_state` (main.rs lines 59-72) on the chart-state store:
resolve the data root, append `Drawings`, create the directory if absent,
sanitize `source_id` and write `state` to `<safe_id>.json`.  The model
covers the successful executions (the claims all condition on success):
directory creation and the write are total here, and the opaque `state`
string is stored as the whole new file content. -/
def save_chart_state (isAlnum : Char → Bool) (appData : List String)
    (sourceId state : String) (fs : FileStore String) : FileStore String :=
  writeFile fs (chartPath isAlnum appData sourceId) state

/-! ## Sticky notes

`StickyNote` (main.rs lines 16-33) derives `serde::Serialize` and
`serde::Deserialize` with renamed wire fields `inkData`, `isMinimized`,
`isPinned` and `zIndex`.  We model the serde layer at the JSON-value
level: `serde_json::to_string_pretty` followed by `serde_json::from_str`
is value-faithful for the documents this program produces, so the store
holds JSON values.  JSON numbers are modelled as rationals: every finite
`f64` and every `i64` is a rational, and `serde_json` reproduces finite
doubles exactly (the notes cross the command boundary as JSON, which
cannot carry NaN or infinities). -/

/-- A JSON value, as `serde_json` sees it. -/
inductive Json : Type where
  | null : Json
  | bool (b : Bool) : Json
  | num (q : ℚ) : Json
  | str (s : String) : Json
  | arr (elems : List Json) : Json
  | obj (fields : List (String × Json)) : Json

/-- `struct Position { x: f64, y: f64 }`. -/
structure Position : Type where
  x : ℚ
  y : ℚ
deriving DecidableEq

/-- `struct Size { w: f64, h: f64 }`. -/
structure Size : Type where
  w : ℚ
  h : ℚ
deriving DecidableEq

/-- `struct StickyNote` (main.rs lines 16-33).  Field order and the wire
names follow the Rust declaration; `ink_data` and `is_pinned` are the two
`Option` fields; `z_index` is an `i64`, modelled as an integer (theorems
carry its range where it matters). -/
structure StickyNote : Type where
  id : String
  title : String
  content : String
  ink_data : Option String
  mode : String
  is_minimized : Bool
  is_pinned : Option Bool
  position : Position
  size : Size
  z_index : ℤ
  color : String
deriving DecidableEq

/-- Serialize an `Option` the way serde does: `None` becomes `null`. -/
def optJson {α : Type} (f : α → Json) : Option α → Json
  | none => Json.null
  | some a => f a

/-- Derived `Serialize` for `Position`. -/
def Position.toJson (p : Position) : Json :=
  Json.obj [("x", Json.num p.x), ("y", Json.num p.y)]

/-- Derived `Serialize` for `Size`. -/
def Size.toJson (s : Size) : Json :=
  Json.obj [("w", Json.num s.w), ("h", Json.num s.h)]

/-- Derived `Serialize` for `StickyNote`: one object field per struct
field, in declaration order, under the `serde(rename)` wire names. -/
def StickyNote.toJson (n : StickyNote) : Json :=
  Json.obj
    [("id", Json.str n.id),
     ("title", Json.str n.title),
     ("content", Json.str n.content),
     ("inkData", optJson Json.str n.ink_data),
     ("mode", Json.str n.mode),
     ("isMinimized", Json.bool n.is_minimized),
     ("isPinned", optJson Json.bool n.is_pinned),
     ("position", n.position.toJson),
     ("size", n.size.toJson),
     ("zIndex", Json.num (n.z_index : ℚ)),
     ("color", Json.str n.color)]

/-- Serialize a `Vec<StickyNote>`: a JSON array in sequence order. -/
def notesToJson (ns : List StickyNote) : Json :=
  Json.arr (ns.map StickyNote.toJson)

/-- Field lookup in a JSON object: first binding wins. -/
def getField : List (String × Json) → String → Option Json
  | [], _ => none
  | (k, v) :: fs, key => if key = k then some v else getField fs key

/-- Deserialize a required `String` field. -/
def reqStr (fields : List (String × Json)) (key : String) : Except String String :=
  match getField fields key with
  | some (Json.str s) => Except.ok s
  | some _ => Except.error ("invalid type for field " ++ key)
  | none => Except.error ("missing field " ++ key)

/-- Deserialize a required `bool` field. -/
def reqBool (fields : List (String × Json)) (key : String) : Except String Bool :=
  match getField fields key with
  | some (Json.bool b) => Except.ok b
  | some _ => Except.error ("invalid type for field " ++ key)
  | none => Except.error ("missing field " ++ key)

/-- Deserialize a required `f64` field. -/
def reqF64 (fields : List (String × Json)) (key : String) : Except String ℚ :=
  match getField fields key with
  | some (Json.num q) => Except.ok q
  | some _ => Except.error ("invalid type for field " ++ key)
  | none => Except.error ("missing field " ++ key)

/-- Deserialize a required `i64` field: the number must be an integer in
the `i64` range, as `serde_json` demands. -/
def reqI64 (fields : List (String × Json)) (key : String) : Except String ℤ :=
  match getField fields key with
  | some (Json.num q) =>
      if q.den = 1 ∧ -(2 ^ 63) ≤ q.num ∧ q.num < 2 ^ 63 then Except.ok q.num
      else Except.error ("invalid value for field " ++ key)
  | some _ => Except.error ("invalid type for field " ++ key)
  | none => Except.error ("missing field " ++ key)

/-- Deserialize an `Option<String>` field: a missing field or `null` is
`None`; serde needs no `default` attribute for `Option` fields. -/
def optStr (fields : List (String × Json)) (key : String) : Except String (Option String) :=
  match getField fields key with
  | some (Json.str s) => Except.ok (some s)
  | some Json.null => Except.ok none
  | some _ => Except.error ("invalid type for field " ++ key)
  | none => Except.ok none

/-- Deserialize an `Option<bool>` field. -/
def optBool (fields : List (String × Json)) (key : String) : Except String (Option Bool) :=
  match getField fields key with
  | some (Json.bool b) => Except.ok (some b)
  | some Json.null => Except.ok none
  | some _ => Except.error ("invalid type for field " ++ key)
  | none => Except.ok none

/-- Derived `Deserialize` for `Position`. -/
def Position.fromJson : Json → Except String Position
  | Json.obj fields => do
      let x ← reqF64 fields "x"
      let y ← reqF64 fields "y"
      Except.ok ⟨x, y⟩
  | _ => Except.error "invalid type: expected struct Position"

/-- Derived `Deserialize` for `Size`. -/
def Size.fromJson : Json → Except String Size
  | Json.obj fields => do
      let w ← reqF64 fields "w"
      let h ← reqF64 fields "h"
      Except.ok ⟨w, h⟩
  | _ => Except.error "invalid type: expected struct Size"

/-- Derived `Deserialize` for `StickyNote`: every non-`Option` field is
required, the two `Option` fields default to `None` when absent. -/
def StickyNote.fromJson : Json → Except String StickyNote
  | Json.obj fields => do
      let id ← reqStr fields "id"
      let title ← reqStr fields "title"
      let content ← reqStr fields "content"
      let inkData ← optStr fields "inkData"
      let mode ← reqStr fields "mode"
      let isMinimized ← reqBool fields "isMinimized"
      let isPinned ← optBool fields "isPinned"
      let position ← match getField fields "position" with
        | some j => Position.fromJson j
        | none => Except.error "missing field position"
      let size ← match getField fields "size" with
        | some j => Size.fromJson j
        | none => Except.error "missing field size"
      let zIndex ← reqI64 fields "zIndex"
      let color ← reqStr fields "color"
      Except.ok ⟨id, title, content, inkData, mode, isMinimized, isPinned,
        position, size, zIndex, color⟩
  | _ => Except.error "invalid type: expected struct StickyNote"

/-- Deserialize a `Vec<StickyNote>`: element by element, failing on the
first bad element. -/
def notesFromJson : Json → Except String (List StickyNote)
  | Json.arr elems => decodeList elems
  | _ => Except.error "invalid type: expected a sequence"
where
  decodeList : List Json → Except String (List StickyNote)
    | [] => Except.ok []
    | j :: js => do
        let n ← StickyNote.fromJson j
        let ns ← decodeList js
        Except.ok (n :: ns)

/-- The fixed path `Database/StickyNotes/sticky_notes.json`. -/
def stickyPath (appData : List String) : List String :=
  appData ++ ["RedPillCharting", "Database", "StickyNotes", "sticky_notes.json"]

/-- `save_sticky_notes` (main.rs lines 74-87): serialize the whole
sequence and overwrite the fixed file.  The model covers the successful
executions; serialization of well-typed notes cannot fail. -/
def save_sticky_notes (appData : List String) (notes : List StickyNote)
    (fs : FileStore Json) : FileStore Json :=
  writeFile fs (stickyPath appData) (notesToJson notes)

/-- `load_sticky_notes` (main.rs lines 89-100): a missing file is the
empty collection; an existing file is parsed, and a parse failure is the
returned error. -/
def load_sticky_notes (appData : List String) (fs : FileStore Json) :
    Except String (List StickyNote) :=
  match fs (stickyPath appData) with
  | none => Except.ok []
  | some j => notesFromJson j

/-! ## `ping` and `read_csv`

`read_csv` is `fs::read_to_string(file_path).map_err(|e| e.to_string())`:
the OS either refuses the read (no such file, permission denied — the
error text is returned) or yields the file's bytes, which must then be
valid UTF-8.  The host file system is an environment mapping each path to
one of those outcomes; the UTF-8 decoding is spelled out byte by byte. -/

/-- `ping`: the constant liveness answer. -/
def ping : String := "pong"

/-- A UTF-8 continuation byte: `b &&& 0xC0 == 0x80`. -/
def contByte (b : UInt8) : Bool := 0x80 ≤ b.toNat && b.toNat < 0xC0

/-- Decode UTF-8 bytes into characters.  Each step consumes at least one
byte and one unit of fuel, so fuel equal to the byte count never runs
out.  Overlong encodings, surrogates and out-of-range code points are
rejected, as Rust's `String::from_utf8` rejects them. -/
def utf8DecodeAux : Nat → List UInt8 → Option (List Char)
  | _, [] => some []
  | 0, _ :: _ => none
  | fuel + 1, b :: rest =>
    let n := b.toNat
    if n < 0x80 then
      (utf8DecodeAux fuel rest).map (fun cs => Char.ofNat n :: cs)
    else if n < 0xC0 then none
    else if n < 0xE0 then
      match rest with
      | b1 :: rest1 =>
        if contByte b1 then
          let r := (n - 0xC0) * 0x40 + (b1.toNat - 0x80)
          if 0x80 ≤ r then (utf8DecodeAux fuel rest1).map (fun cs => Char.ofNat r :: cs)
          else none
        else none
      | [] => none
    else if n < 0xF0 then
      match rest with
      | b1 :: b2 :: rest2 =>
        if contByte b1 && contByte b2 then
          let r := (n - 0xE0) * 0x1000 + (b1.toNat - 0x80) * 0x40 + (b2.toNat - 0x80)
          if 0x800 ≤ r ∧ ¬(0xD800 ≤ r ∧ r ≤ 0xDFFF) then
            (utf8DecodeAux fuel rest2).map (fun cs => Char.ofNat r :: cs)
          else none
        else none
      | _ => none
    else if n < 0xF8 then
      match rest with
      | b1 :: b2 :: b3 :: rest3 =>
        if contByte b1 && contByte b2 && contByte b3 then
          let r := (n - 0xF0) * 0x40000 + (b1.toNat - 0x80) * 0x1000 +
            (b2.toNat - 0x80) * 0x40 + (b3.toNat - 0x80)
          if 0x10000 ≤ r ∧ r < 0x110000 then
            (utf8DecodeAux fuel rest3).map (fun cs => Char.ofNat r :: cs)
          else none
        else none
      | _ => none
    else none

/-- Decode a whole byte sequence to a string, or `none` when it is not
valid UTF-8. -/
def utf8Decode (bytes : List UInt8) : Option String :=
  (utf8DecodeAux bytes.length bytes).map (fun cs => ⟨cs⟩)

/-- What the OS gives `fs::read_to_string` for one path: an I/O error
rendered to its message (file missing, permission denied, ...), or the
raw bytes of the file. -/
inductive ReadResult : Type where
  | osError (msg : String) : ReadResult
  | bytes (content : List UInt8) : ReadResult
deriving DecidableEq

/-- `read_csv` (main.rs lines 51-56): read the whole file as UTF-8 text
and return it verbatim; any failure becomes an error string.  The
diagnostic `println!` has no observable effect on the result. -/
def read_csv (env : String → ReadResult) (filePath : String) : Except String String :=
  match env filePath with
  | ReadResult.osError e => Except.error e
  | ReadResult.bytes bs =>
    match utf8Decode bs with
    | some s => Except.ok s
    | none => Except.error "stream did not contain valid UTF-8"

/-! ## Small auxiliaries for the statements -/

/-- Remove one field from a JSON object (used to state which stored
fields are required and which are optional). -/
def eraseField (key : String) : Json → Json
  | Json.obj fields => Json.obj (fields.filter (fun kv => kv.1 != key))
  | j => j

/-- A concrete sticky note used to instantiate the universally
quantified theorems. -/
def sampleNote : StickyNote :=
  ⟨"n1", "todo", "buy milk", some "ink-blob", "text", false, some true,
    ⟨1 / 2, 3⟩, ⟨120, 80⟩, 7, "yellow"⟩

/-! # Theorems -/

/-- The sanitizer is a character-wise map. -/
theorem sanitize_data (isAlnum : Char → Bool) (s : String) :
    (sanitize isAlnum s).data = s.data.map (sanitizeChar isAlnum) := rfl

/-- A character that is neither kept by the sanitizer nor `'_'` never
occurs in a sanitizer output character. -/
theorem sanitizeChar_ne (isAlnum : Char → Bool) (c x : Char)
    (hx : isAlnum x = false) (hu : x ≠ '_') (hd : x ≠ '-') :
    sanitizeChar isAlnum c ≠ x := by
  unfold sanitizeChar
  split
  · rename_i h
    intro hcx
    subst hcx
    simp [hx] at h
    rcases h with h | h
    · exact hu (by exact_mod_cast h)
    · exact hd (by exact_mod_cast h)
  · intro h
    exact hu h.symm

/-- Sanitizing one character twice is the same as sanitizing it once. -/
theorem sanitizeChar_idem (isAlnum : Char → Bool) (c : Char) :
    sanitizeChar isAlnum (sanitizeChar isAlnum c) = sanitizeChar isAlnum c := by
  unfold sanitizeChar
  split
  · rfl
  · simp

/-- C2: the identifier sanitizer is a total function that preserves the
length of its input and, position by position, keeps every character that
is alphanumeric, `'_'` or `'-'` and replaces every other character with
`'_'`. -/
theorem sanitize_total_pointwise (isAlnum : Char → Bool) (s : String) :
    (sanitize isAlnum s).length = s.length ∧
    ∀ (i : ℕ) (h1 : i < (sanitize isAlnum s).data.length) (h2 : i < s.data.length),
      (sanitize isAlnum s).data.get ⟨i, h1⟩ =
        (if isAlnum (s.data.get ⟨i, h2⟩) || s.data.get ⟨i, h2⟩ == '_'
            || s.data.get ⟨i, h2⟩ == '-'
         then s.data.get ⟨i, h2⟩ else '_') := by
  constructor
  · show (s.data.map (sanitizeChar isAlnum)).length = s.data.length
    exact List.length_map _ _
  · intro i h1 h2
    simp only [sanitize, List.get_eq_getElem, List.getElem_map]
    rfl

/-- Witness for C2 at `"a.b"`: the length is preserved and the `'.'` at
position 1 comes out as `'_'`. -/
theorem sanitize_total_pointwise_witness :
    (sanitize Char.isAlphanum "a.b").length = ("a.b" : String).length ∧
    (sanitize Char.isAlphanum "a.b").data.get ⟨1, by decide⟩ = '_' := by
  refine ⟨(sanitize_total_pointwise Char.isAlphanum "a.b").1, ?_⟩
  have h := (sanitize_total_pointwise Char.isAlphanum "a.b").2 1 (by decide) (by decide)
  simpa using h

/-- C3, counterexample: sanitizing `"../../etc/passwd"` does NOT give the
spec's `".._.._etc_passwd"` — the sanitizer replaces `'.'` as well, since
`'.'` is neither alphanumeric nor `'_'` nor `'-'`.  (`Char.isAlphanum`
agrees with Rust's `char::is_alphanumeric` on every ASCII character, and
the input is all ASCII.) -/
theorem sanitize_traversal_example_counterexample :
    sanitize Char.isAlphanum "../../etc/passwd" ≠ ".._.._etc_passwd" := by decide

/-- C3, amended: for any alphanumeric predicate that agrees with ASCII
alphanumerity on the ASCII range (as Rust's `char::is_alphanumeric`
does), sanitizing `"../../etc/passwd"` yields `"______etc_passwd"`. -/
theorem sanitize_traversal_example (isAlnum : Char → Bool)
    (hAscii : ∀ c : Char, c.toNat < 128 → isAlnum c = c.isAlphanum) :
    sanitize isAlnum "../../etc/passwd" = "______etc_passwd" := by
  have hall : ∀ a ∈ ("../../etc/passwd" : String).data, a.toNat < 128 := by decide
  have hmap : ("../../etc/passwd" : String).data.map (sanitizeChar isAlnum) =
      ("../../etc/passwd" : String).data.map (sanitizeChar Char.isAlphanum) :=
    List.map_congr_left (fun a ha => by simp [sanitizeChar, hAscii a (hall a ha)])
  apply String.ext
  rw [sanitize_data, hmap]
  decide

/-- Witness for the amended C3 at the ASCII alphanumeric predicate. -/
theorem sanitize_traversal_example_witness :
    sanitize Char.isAlphanum "../../etc/passwd" = "______etc_passwd" :=
  sanitize_traversal_example Char.isAlphanum (fun _ _ => rfl)

/-- C4: the sanitizer is idempotent, and (because `'/'`, `'\\'`, `'.'`
and the null character are not alphanumeric) its output contains no
`'/'`, no `'\\'`, no null character, and no `".."` substring. -/
theorem sanitize_idempotent_separator_free (isAlnum : Char → Bool) (s : String)
    (hs : isAlnum '/' = false) (hb : isAlnum '\\' = false)
    (hd : isAlnum '.' = false) (hn : isAlnum (Char.ofNat 0) = false) :
    sanitize isAlnum (sanitize isAlnum s) = sanitize isAlnum s ∧
    '/' ∉ (sanitize isAlnum s).data ∧
    '\\' ∉ (sanitize isAlnum s).data ∧
    Char.ofNat 0 ∉ (sanitize isAlnum s).data ∧
    ¬ List.IsInfix ['.', '.'] (sanitize isAlnum s).data := by
  have hnot : ∀ x : Char, isAlnum x = false → x ≠ '_' → x ≠ '-' →
      x ∉ (sanitize isAlnum s).data := by
    intro x hx hu hdash hmem
    rw [sanitize_data] at hmem
    obtain ⟨c, _, hc⟩ := List.mem_map.mp hmem
    exact sanitizeChar_ne isAlnum c x hx hu hdash hc
  refine ⟨?_, hnot '/' hs (by decide) (by decide), hnot '\\' hb (by decide) (by decide),
    hnot (Char.ofNat 0) hn (by decide) (by decide), ?_⟩
  · apply String.ext
    rw [sanitize_data, sanitize_data, List.map_map]
    exact List.map_congr_left (fun c _ => sanitizeChar_idem isAlnum c)
  · intro hinf
    exact hnot '.' hd (by decide) (by decide) (hinf.subset (by decide))

/-- Witness for C4 at `"a/b\\..c"` and the ASCII alphanumeric predicate. -/
theorem sanitize_idempotent_separator_free_witness :
    sanitize Char.isAlphanum (sanitize Char.isAlphanum "a/b\\..c") =
      sanitize Char.isAlphanum "a/b\\..c" ∧
    '/' ∉ (sanitize Char.isAlphanum "a/b\\..c").data ∧
    '\\' ∉ (sanitize Char.isAlphanum "a/b\\..c").data ∧
    Char.ofNat 0 ∉ (sanitize Char.isAlphanum "a/b\\..c").data ∧
    ¬ List.IsInfix ['.', '.'] (sanitize Char.isAlphanum "a/b\\..c").data :=
  sanitize_idempotent_separator_free Char.isAlphanum "a/b\\..c" rfl rfl rfl rfl

/-- No character of the written file name is a path separator: the
sanitizer output cannot contain `'/'` or `'\\'`, and `".json"` has
neither. -/
theorem chartFileName_no_sep (isAlnum : Char → Bool) (sourceId : String)
    (hs : isAlnum '/' = false) (hb : isAlnum '\\' = false) :
    ∀ c ∈ (chartFileName isAlnum sourceId).data, isSep c = false := by
  intro c hc
  have hdata : (chartFileName isAlnum sourceId).data =
      (sanitize isAlnum sourceId).data ++ (".json" : String).data := by
    simp [chartFileName]
  rw [hdata] at hc
  rcases List.mem_append.mp hc with h | h
  · rw [sanitize_data] at h
    obtain ⟨a, _, ha⟩ := List.mem_map.mp h
    by_contra hsep
    rw [Bool.not_eq_false] at hsep
    have : c = '/' ∨ c = '\\' := by
      simp [isSep] at hsep
      rcases hsep with h1 | h1
      · exact Or.inl (by exact_mod_cast h1)
      · exact Or.inr (by exact_mod_cast h1)
    rcases this with rfl | rfl
    · exact sanitizeChar_ne isAlnum a '/' hs (by decide) (by decide) ha
    · exact sanitizeChar_ne isAlnum a '\\' hb (by decide) (by decide) ha
  · fin_cases h <;> decide

/-- A non-empty, separator-free string is a single path component. -/
theorem splitPath_single (s : String) (hne : s.data ≠ [])
    (hsep : ∀ c ∈ s.data, isSep c = false) : splitPath s = [s] := by
  unfold splitPath
  rw [List.splitOnP_eq_single _ _ (fun x hx => by simp [hsep x hx])]
  simp [hne]

/-- Joining a non-empty, separator-free file name appends exactly one
component. -/
theorem joinPath_single (dir : List String) (s : String) (hne : s.data ≠ [])
    (hsep : ∀ c ∈ s.data, isSep c = false) : joinPath dir s = dir ++ [s] := by
  unfold joinPath
  split
  · rename_i c rest hd
    have hc : isSep c = false := hsep c (by rw [hd]; exact List.mem_cons_self c rest)
    rw [hc]
    simp [splitPath_single s hne hsep]
  · rename_i hd
    exact absurd hd hne

/-- Resolution leaves a trailing component that is neither `"."` nor
`".."` in place. -/
theorem resolvePath_concat (l : List String) (x : String)
    (h1 : x ≠ ".") (h2 : x ≠ "..") :
    resolvePath (l ++ [x]) = resolvePath l ++ [x] := by
  unfold resolvePath
  rw [List.foldl_append]
  simp [h1, h2]

/-- The written file name, ending in `".json"`, is neither `"."` nor
`".."`. -/
theorem chartFileName_ne_dots (isAlnum : Char → Bool) (sourceId : String) :
    chartFileName isAlnum sourceId ≠ "." ∧ chartFileName isAlnum sourceId ≠ ".." := by
  have hdata : (chartFileName isAlnum sourceId).data =
      (sanitize isAlnum sourceId).data ++ (".json" : String).data := by
    simp [chartFileName]
  constructor
  · intro h
    have := congrArg (fun t => t.data.length) h
    simp [hdata] at this
  · intro h
    have := congrArg (fun t => t.data.length) h
    simp [hdata] at this

/-- C1: for every `source_id` (and every alphanumeric predicate on which
`'/'` and `'\\'` are not alphanumeric, as in Rust), `save_chart_state`
writes exactly one file, touches nothing else, and the target path is the
`Drawings` directory plus a single file-name component, so its resolved
parent is the resolved `Drawings` directory — no `source_id` escapes. -/
theorem save_chart_state_inside_drawings (isAlnum : Char → Bool)
    (appData : List String) (sourceId state : String) (fs : FileStore String)
    (hs : isAlnum '/' = false) (hb : isAlnum '\\' = false) :
    save_chart_state isAlnum appData sourceId state fs
        (chartPath isAlnum appData sourceId) = some state ∧
    (∀ p, p ≠ chartPath isAlnum appData sourceId →
      save_chart_state isAlnum appData sourceId state fs p = fs p) ∧
    chartPath isAlnum appData sourceId =
      drawingsDir appData ++ [chartFileName isAlnum sourceId] ∧
    (resolvePath (chartPath isAlnum appData sourceId)).dropLast =
      resolvePath (drawingsDir appData) := by
  have hne : (chartFileName isAlnum sourceId).data ≠ [] := by
    have hdata : (chartFileName isAlnum sourceId).data =
        (sanitize isAlnum sourceId).data ++ (".json" : String).data := by
      simp [chartFileName]
    rw [hdata]
    simp
  have hsep := chartFileName_no_sep isAlnum sourceId hs hb
  have hpath : chartPath isAlnum appData sourceId =
      drawingsDir appData ++ [chartFileName isAlnum sourceId] := by
    unfold chartPath
    exact joinPath_single _ _ hne hsep
  obtain ⟨hd1, hd2⟩ := chartFileName_ne_dots isAlnum sourceId
  refine ⟨?_, ?_, hpath, ?_⟩
  · simp [save_chart_state, writeFile]
  · intro p hp
    simp [save_chart_state, writeFile, hp]
  · rw [hpath, resolvePath_concat _ _ hd1 hd2]
    simp

/-- Witness for C1 at `source_id = "../../evil"`. -/
theorem save_chart_state_inside_drawings_witness :
    save_chart_state Char.isAlphanum ["AppData"] "../../evil" "{}" (fun _ => none)
        (chartPath Char.isAlphanum ["AppData"] "../../evil") = some "{}" ∧
    save_chart_state Char.isAlphanum ["AppData"] "../../evil" "{}" (fun _ => none)
        ["AppData", "evil"] = none ∧
    chartPath Char.isAlphanum ["AppData"] "../../evil" =
      drawingsDir ["AppData"] ++ [chartFileName Char.isAlphanum "../../evil"] ∧
    (resolvePath (chartPath Char.isAlphanum ["AppData"] "../../evil")).dropLast =
      resolvePath (drawingsDir ["AppData"]) := by
  have h := save_chart_state_inside_drawings Char.isAlphanum ["AppData"] "../../evil" "{}"
    (fun _ => none) rfl rfl
  exact ⟨h.1, h.2.1 ["AppData", "evil"] (by decide), h.2.2.1, h.2.2.2⟩

/-- C7: saving twice under the same `source_id` leaves exactly the second
state at the one target path and every other path as it was before both
saves: a full overwrite with no append, merge or versioning. -/
theorem save_chart_state_overwrites (isAlnum : Char → Bool)
    (appData : List String) (sourceId s1 s2 : String) (fs : FileStore String) :
    save_chart_state isAlnum appData sourceId s2
        (save_chart_state isAlnum appData sourceId s1 fs)
        (chartPath isAlnum appData sourceId) = some s2 ∧
    ∀ p, p ≠ chartPath isAlnum appData sourceId →
      save_chart_state isAlnum appData sourceId s2
          (save_chart_state isAlnum appData sourceId s1 fs) p = fs p := by
  constructor
  · simp [save_chart_state, writeFile]
  · intro p hp
    simp [save_chart_state, writeFile, hp]

/-- Witness for C7: the second value is the one on disk, other paths are
untouched. -/
theorem save_chart_state_overwrites_witness :
    save_chart_state Char.isAlphanum ["AppData"] "chart1" "v2"
        (save_chart_state Char.isAlphanum ["AppData"] "chart1" "v1" (fun _ => none))
        (chartPath Char.isAlphanum ["AppData"] "chart1") = some "v2" ∧
    save_chart_state Char.isAlphanum ["AppData"] "chart1" "v2"
        (save_chart_state Char.isAlphanum ["AppData"] "chart1" "v1" (fun _ => none))
        ["elsewhere"] = none := by
  have h := save_chart_state_overwrites Char.isAlphanum ["AppData"] "chart1" "v1" "v2"
    (fun _ => none)
  exact ⟨h.1, h.2 ["elsewhere"] (by decide)⟩

/-- C9: `get_db_path` appends `RedPillCharting/Database` to the directory
the OS supplies and propagates the OS failure otherwise.  It is a pure
function of the host context — its type mentions no file-store state, so
it can neither write files nor create directories. -/
theorem get_db_path_spec :
    (∀ dir : List String,
      get_db_path (Except.ok dir) = Except.ok (dir ++ ["RedPillCharting", "Database"])) ∧
    (∀ e : String, get_db_path (Except.error e) = Except.error e) := by
  exact ⟨fun dir => rfl, fun e => rfl⟩

/-- Witness for C9 at a concrete app-data directory and a concrete OS
error. -/
theorem get_db_path_spec_witness :
    get_db_path (Except.ok ["home", "user", ".local", "share"]) =
      Except.ok ["home", "user", ".local", "share", "RedPillCharting", "Database"] ∧
    get_db_path (Except.error "unknown app data directory") =
      Except.error "unknown app data directory" :=
  ⟨get_db_path_spec.1 ["home", "user", ".local", "share"],
   get_db_path_spec.2 "unknown app data directory"⟩

/-- Decoding the encoding of one note gives the note back (the `i64`
range of `z_index` is an invariant of the Rust type). -/
theorem fromJson_toJson (n : StickyNote)
    (hz : -(2 ^ 63) ≤ n.z_index ∧ n.z_index < 2 ^ 63) :
    StickyNote.fromJson n.toJson = Except.ok n := by
  obtain ⟨id, title, content, ink, mode, mind, pin, ⟨px, py⟩, ⟨sw, sh⟩, z, color⟩ := n
  have hz1 : (-9223372036854775808 : ℤ) ≤ z := by
    have h := hz.1
    norm_num at h
    exact h
  have hz2 : z < (9223372036854775808 : ℤ) := by
    have h := hz.2
    norm_num at h
    exact h
  cases ink <;> cases pin <;>
    simp [StickyNote.toJson, StickyNote.fromJson, Position.toJson, Position.fromJson,
      Size.toJson, Size.fromJson, optJson, getField, reqStr, reqBool, reqF64, reqI64,
      optStr, optBool, Bind.bind, Except.bind, hz1, hz2]

/-- Decoding the encoding of a note sequence gives the sequence back. -/
theorem notes_roundtrip (ns : List StickyNote)
    (hz : ∀ n ∈ ns, -(2 ^ 63) ≤ n.z_index ∧ n.z_index < 2 ^ 63) :
    notesFromJson (notesToJson ns) = Except.ok ns := by
  induction ns with
  | nil => rfl
  | cons n ns ih =>
    have h1 := fromJson_toJson n (hz n (List.mem_cons_self n ns))
    have h2 := ih (fun m hm => hz m (List.mem_cons_of_mem n hm))
    simp only [notesToJson, notesFromJson, List.map_cons] at h2 ⊢
    simp [notesFromJson.decodeList, h1, h2, Bind.bind, Except.bind]

/-- C5: saving any sticky-note sequence and loading it back (no
intervening writes, no I/O failure — the model's writes always land)
returns the same sequence, equal in content and order. -/
theorem sticky_notes_roundtrip (appData : List String) (notes : List StickyNote)
    (fs : FileStore Json)
    (hz : ∀ n ∈ notes, -(2 ^ 63) ≤ n.z_index ∧ n.z_index < 2 ^ 63) :
    load_sticky_notes appData (save_sticky_notes appData notes fs) = Except.ok notes := by
  unfold load_sticky_notes save_sticky_notes writeFile
  simp [notes_roundtrip notes hz]

/-- Witness for C5 at a concrete one-note sequence. -/
theorem sticky_notes_roundtrip_witness :
    load_sticky_notes ["AppData"]
      (save_sticky_notes ["AppData"] [sampleNote] (fun _ => none)) =
    Except.ok [sampleNote] :=
  sticky_notes_roundtrip ["AppData"] [sampleNote] (fun _ => none) (by decide)

/-- C6: when no sticky-notes file exists at the fixed path,
`load_sticky_notes` returns the empty sequence as a success, not an
error. -/
theorem load_sticky_notes_fresh (appData : List String) (fs : FileStore Json)
    (h : fs (stickyPath appData) = none) :
    load_sticky_notes appData fs = Except.ok [] := by
  unfold load_sticky_notes
  rw [h]

/-- Witness for C6 on an entirely empty file store. -/
theorem load_sticky_notes_fresh_witness :
    load_sticky_notes ["AppData"] (fun _ => none) = Except.ok [] :=
  load_sticky_notes_fresh ["AppData"] (fun _ => none) rfl

/-- C10: deleting `inkData` or `isPinned` from a stored note object still
deserializes (the field becomes `None`), while deleting any of the nine
remaining fields makes deserialization of the collection fail. -/
theorem sticky_note_field_requirements (n : StickyNote)
    (hz : -(2 ^ 63) ≤ n.z_index ∧ n.z_index < 2 ^ 63) :
    notesFromJson (Json.arr [eraseField "inkData" n.toJson]) =
      Except.ok [⟨n.id, n.title, n.content, none, n.mode, n.is_minimized, n.is_pinned,
        n.position, n.size, n.z_index, n.color⟩] ∧
    notesFromJson (Json.arr [eraseField "isPinned" n.toJson]) =
      Except.ok [⟨n.id, n.title, n.content, n.ink_data, n.mode, n.is_minimized, none,
        n.position, n.size, n.z_index, n.color⟩] ∧
    ∀ f ∈ (["id", "title", "content", "mode", "isMinimized", "position", "size",
        "zIndex", "color"] : List String),
      (notesFromJson (Json.arr [eraseField f n.toJson])).isOk = false := by
  obtain ⟨id, title, content, ink, mode, mind, pin, ⟨px, py⟩, ⟨sw, sh⟩, z, color⟩ := n
  have hz1 : (-9223372036854775808 : ℤ) ≤ z := by
    have h := hz.1
    norm_num at h
    exact h
  have hz2 : z < (9223372036854775808 : ℤ) := by
    have h := hz.2
    norm_num at h
    exact h
  refine ⟨?_, ?_, ?_⟩
  · cases ink <;> cases pin <;>
      simp [StickyNote.toJson, StickyNote.fromJson, Position.toJson, Position.fromJson,
        Size.toJson, Size.fromJson, optJson, getField, reqStr, reqBool, reqF64, reqI64,
        optStr, optBool, Bind.bind, Except.bind, hz1, hz2, eraseField, List.filter,
        notesFromJson, notesFromJson.decodeList]
  · cases ink <;> cases pin <;>
      simp [StickyNote.toJson, StickyNote.fromJson, Position.toJson, Position.fromJson,
        Size.toJson, Size.fromJson, optJson, getField, reqStr, reqBool, reqF64, reqI64,
        optStr, optBool, Bind.bind, Except.bind, hz1, hz2, eraseField, List.filter,
        notesFromJson, notesFromJson.decodeList]
  · intro f hf
    fin_cases hf <;>
      cases ink <;> cases pin <;>
        simp [StickyNote.toJson, StickyNote.fromJson, Position.toJson, Position.fromJson,
          Size.toJson, Size.fromJson, optJson, getField, reqStr, reqBool, reqF64, reqI64,
          optStr, optBool, Bind.bind, Except.bind, hz1, hz2, eraseField, List.filter,
          notesFromJson, notesFromJson.decodeList, Except.isOk, Except.toBool]

/-- Witness for C10: `sampleNote` without `inkData` and without
`isPinned` still decodes, and without `id` it does not. -/
theorem sticky_note_field_requirements_witness :
    notesFromJson (Json.arr [eraseField "inkData" sampleNote.toJson]) =
      Except.ok [⟨sampleNote.id, sampleNote.title, sampleNote.content, none,
        sampleNote.mode, sampleNote.is_minimized, sampleNote.is_pinned,
        sampleNote.position, sampleNote.size, sampleNote.z_index, sampleNote.color⟩] ∧
    notesFromJson (Json.arr [eraseField "isPinned" sampleNote.toJson]) =
      Except.ok [⟨sampleNote.id, sampleNote.title, sampleNote.content,
        sampleNote.ink_data, sampleNote.mode, sampleNote.is_minimized, none,
        sampleNote.position, sampleNote.size, sampleNote.z_index, sampleNote.color⟩] ∧
    (notesFromJson (Json.arr [eraseField "id" sampleNote.toJson])).isOk = false := by
  have h := sticky_note_field_requirements sampleNote (by decide)
  exact ⟨h.1, h.2.1, h.2.2 "id" (by decide)⟩

/-- C8: `read_csv` returns the decoded text of the file's bytes
verbatim when the OS yields bytes that are valid UTF-8, returns the OS
error message when the OS refuses the read (missing file, permissions),
and returns an error — not a crash — when the bytes are not valid
UTF-8. -/
theorem read_csv_spec (env : String → ReadResult) (p : String) :
    (∀ (bs : List UInt8) (s : String), env p = ReadResult.bytes bs →
      utf8Decode bs = some s → read_csv env p = Except.ok s) ∧
    (∀ e : String, env p = ReadResult.osError e → read_csv env p = Except.error e) ∧
    (∀ bs : List UInt8, env p = ReadResult.bytes bs → utf8Decode bs = none →
      ∃ e : String, read_csv env p = Except.error e) := by
  refine ⟨?_, ?_, ?_⟩
  · intro bs s h1 h2
    simp [read_csv, h1, h2]
  · intro e h
    simp [read_csv, h]
  · intro bs h1 h2
    exact ⟨"stream did not contain valid UTF-8", by simp [read_csv, h1, h2]⟩

/-- Witness for C8: a file holding the UTF-8 bytes of `"a,b\n1,2"` reads
back as exactly that string; a missing file propagates the OS error; a
file of invalid UTF-8 yields an error value. -/
theorem read_csv_spec_witness :
    read_csv
      (fun q =>
        if q = "good.csv" then ReadResult.bytes [0x61, 0x2C, 0x62, 0x0A, 0x31, 0x2C, 0x32]
        else if q = "bad.csv" then ReadResult.bytes [0xFF]
        else ReadResult.osError "No such file or directory (os error 2)")
      "good.csv" = Except.ok "a,b\n1,2" ∧
    read_csv
      (fun q =>
        if q = "good.csv" then ReadResult.bytes [0x61, 0x2C, 0x62, 0x0A, 0x31, 0x2C, 0x32]
        else if q = "bad.csv" then ReadResult.bytes [0xFF]
        else ReadResult.osError "No such file or directory (os error 2)")
      "missing.csv" = Except.error "No such file or directory (os error 2)" ∧
    ∃ e : String,
      read_csv
        (fun q =>
          if q = "good.csv" then ReadResult.bytes [0x61, 0x2C, 0x62, 0x0A, 0x31, 0x2C, 0x32]
          else if q = "bad.csv" then ReadResult.bytes [0xFF]
          else ReadResult.osError "No such file or directory (os error 2)")
        "bad.csv" = Except.error e := by
  refine ⟨?_, ?_, ?_⟩
  · exact (read_csv_spec _ "good.csv").1 [0x61, 0x2C, 0x62, 0x0A, 0x31, 0x2C, 0x32]
      "a,b\n1,2" (by decide) (by decide)
  · exact (read_csv_spec _ "missing.csv").2.1 "No such file or directory (os error 2)"
      (by decide)
  · exact (read_csv_spec _ "bad.csv").2.2 [0xFF] (by decide) (by decide)

end RedPill
